import Mathlib

/-!
Shallow embedding of parts of the JUCE repository:
  * `RelativePointPath` (src/src/gui/components/positioning/juce_RelativePointPath.cpp)
  * the `Thread` lifecycle component (declared in
    src/src/juce_core/threads/juce_Thread.h; the implementation file is not
    part of the excerpt, so its behaviour is modelled from the spec and the
    header's documentation comments).
-/

namespace JUCE

/-! ## RelativePointPath (from juce_RelativePointPath.cpp) -/

/-- A `RelativePoint`.  Its definition lives outside the excerpt
(juce_RelativePoint.h); for the path-level logic only its equality and its
`isDynamic()` query matter, so it is modelled as coordinates plus the flag
that `isDynamic()` reports (whether either coordinate is a symbolic
expression rather than a constant). -/
structure RelativePoint where
  x : Int
  y : Int
  dynamicFlag : Bool
deriving DecidableEq, Repr

/-- `RelativePoint::isDynamic()`. -/
def RelativePoint.isDynamic (p : RelativePoint) : Bool :=
  p.dynamicFlag

/-- The element type tags of `RelativePointPath::ElementType`. -/
inductive ElementType where
  | nullElement
  | startSubPathElement
  | closeSubPathElement
  | lineToElement
  | quadraticToElement
  | cubicToElement
deriving DecidableEq, Repr

/-- The concrete `ElementBase` subclasses of `RelativePointPath`
(StartSubPath, CloseSubPath, LineTo, QuadraticTo, CubicTo), each carrying
its control points. -/
inductive PathElement where
  | startSubPath (startPos : RelativePoint)
  | closeSubPath
  | lineTo (endPoint : RelativePoint)
  | quadraticTo (cp1 cp2 : RelativePoint)
  | cubicTo (cp1 cp2 cp3 : RelativePoint)
deriving DecidableEq, Repr

/-- The `type` member set by each subclass constructor. -/
def PathElement.elementType : PathElement → ElementType
  | .startSubPath _ => .startSubPathElement
  | .closeSubPath => .closeSubPathElement
  | .lineTo _ => .lineToElement
  | .quadraticTo _ _ => .quadraticToElement
  | .cubicTo _ _ _ => .cubicToElement

/-- `getControlPoints`: StartSubPath and LineTo expose one point,
CloseSubPath none, QuadraticTo two, CubicTo three, in declaration order. -/
def PathElement.getControlPoints : PathElement → List RelativePoint
  | .startSubPath p => [p]
  | .closeSubPath => []
  | .lineTo p => [p]
  | .quadraticTo a b => [a, b]
  | .cubicTo a b c => [a, b, c]

/-- `ElementBase::isDynamic()`: true iff some control point is dynamic
(the C++ scans the control-point array and returns true on the first
dynamic point). -/
def PathElement.isDynamic (e : PathElement) : Bool :=
  e.getControlPoints.any RelativePoint.isDynamic

/-- `clone()`: each subclass builds a fresh element from the same control
points, so under value semantics it is the identity. -/
def PathElement.clone (e : PathElement) : PathElement :=
  e

/-- The `RelativePointPath` data: the owned element list plus the
`usesNonZeroWinding` and `containsDynamicPoints` members. -/
structure RelativePointPath where
  elements : List PathElement
  usesNonZeroWinding : Bool
  containsDynamicPoints : Bool
deriving DecidableEq, Repr

/-- The default constructor: empty list, `usesNonZeroWinding = true`,
`containsDynamicPoints = false`. -/
def RelativePointPath.empty : RelativePointPath :=
  { elements := [], usesNonZeroWinding := true, containsDynamicPoints := false }

/-- The copy constructor `RelativePointPath(const RelativePointPath&)`:
it clones the element list of `other` but its initialiser list sets
`usesNonZeroWinding (true)` and `containsDynamicPoints (false)`
unconditionally. -/
def RelativePointPath.copyOf (other : RelativePointPath) : RelativePointPath :=
  { elements := other.elements.map PathElement.clone
    usesNonZeroWinding := true
    containsDynamicPoints := false }

/-- The per-element comparison performed inside `operator==`: same `type`
tag, then pairwise-equal control points. -/
def PathElement.sameAs (e1 e2 : PathElement) : Bool :=
  e1.elementType = e2.elementType && e1.getControlPoints = e2.getControlPoints

/-- `RelativePointPath::operator==`: sizes and both flags must match, then
every element pair must agree on type and control points. -/
def RelativePointPath.eq (a b : RelativePointPath) : Bool :=
  a.elements.length = b.elements.length
    && a.usesNonZeroWinding = b.usesNonZeroWinding
    && a.containsDynamicPoints = b.containsDynamicPoints
    && (a.elements.zip b.elements).all fun p => p.1.sameAs p.2

/-- `RelativePointPath::containsAnyDynamicPoints()`. -/
def RelativePointPath.containsAnyDynamicPoints (p : RelativePointPath) : Bool :=
  p.containsDynamicPoints

/-- `RelativePointPath::addElement`: a null element is ignored; otherwise
the element is appended and `containsDynamicPoints` is or-ed with the new
element's `isDynamic()`. -/
def RelativePointPath.addElement (p : RelativePointPath)
    (newElement : Option PathElement) : RelativePointPath :=
  match newElement with
  | none => p
  | some e =>
      { p with
        elements := p.elements ++ [e]
        containsDynamicPoints := p.containsDynamicPoints || e.isDynamic }

/-! ## Thread (declared in juce_Thread.h)

The excerpt contains only the class declaration and its documentation
comments; the implementation file is not part of src/.  The lifecycle
semantics below are therefore modelled from the spec (sections 3-7) and
from the doc comments in the header, as explicit state passing with
environment oracles for the scheduler (whether a spawn succeeds, whether
the worker exits within a timeout, whether a notify arrives). -/

/-- Modelled from the spec: the observable state of one `Thread` object
(juce_Thread.h lines 270-284: `threadName_`, `threadHandle_`,
`threadPriority_`, `threadId_`, `affinityMask_`, `threadShouldExit_`, and
the `defaultEvent_` user signal).  `threadHandle_` is `some h` exactly
while a native execution unit is associated; `runningAffinity` records the
affinity that was applied to the live native unit when it was spawned
(none while idle), so that the non-retroactivity of `setAffinityMask` is
expressible. -/
structure Thread where
  threadName_ : String
  threadHandle_ : Option Nat
  threadId_ : Nat
  threadPriority_ : Int
  affinityMask_ : Nat
  runningAffinity : Option Nat
  threadShouldExit_ : Bool
  userSignal : Bool
deriving DecidableEq, Repr

/-- Modelled from the spec: `Thread::Thread(name)` constructs an idle
thread (no native handle, no valid id, default priority 5, empty affinity
mask, exit flag clear, user signal clear). -/
def Thread.mkThread (name : String) : Thread :=
  { threadName_ := name
    threadHandle_ := none
    threadId_ := 0
    threadPriority_ := 5
    affinityMask_ := 0
    runningAffinity := none
    threadShouldExit_ := false
    userSignal := false }

/-- `Thread::isThreadRunning()`: true iff a native handle is currently
associated. -/
def Thread.isThreadRunning (t : Thread) : Bool :=
  t.threadHandle_.isSome

/-- `Thread::getThreadId()`: the id member (valid only while running). -/
def Thread.getThreadId (t : Thread) : Nat :=
  t.threadId_

/-- `Thread::threadShouldExit()` (inline in the header): a non-blocking
read of `threadShouldExit_`. -/
def Thread.threadShouldExit (t : Thread) : Bool :=
  t.threadShouldExit_

/-- `Thread::getThreadName()`: the name set at construction. -/
def Thread.getThreadName (t : Thread) : String :=
  t.threadName_

/-- Modelled from the spec: the clamping applied to a requested priority,
values below 0 become 0 and values above 10 become 10. -/
def clampPriority (p : Int) : Int :=
  max 0 (min 10 p)

/-- Modelled from the spec: `Thread::setPriority(p)` stores the clamped
priority; it is applied to the native unit immediately when running and
cached for the next start otherwise, so the internally queried priority is
the clamped value in both cases. -/
def Thread.setPriority (t : Thread) (priority : Int) : Thread :=
  { t with threadPriority_ := clampPriority priority }

/-- Modelled from the spec: static `Thread::setCurrentThreadPriority(p)`
applies the clamped priority to the calling execution context; the
returned value is the priority that context ends up with. -/
def Thread.setCurrentThreadPriority (priority : Int) : Int :=
  clampPriority priority

/-- `Thread::setAffinityMask(mask)`: per the header doc comment it only
takes effect next time the thread is started, so it merely stores the
cached mask. -/
def Thread.setAffinityMask (t : Thread) (affinityMask : Nat) : Thread :=
  { t with affinityMask_ := affinityMask }

/-- Modelled from the spec: `Thread::startThread()`.  A no-op when a
native unit is already associated; otherwise it clears the exit flag and
spawns a native unit (fresh handle/id `newId`, the cached affinity applied
to it), returning after the start rendezvous.  A spawn failure
(`spawnOk = false`) leaves the thread idle and unchanged. -/
def Thread.startThread (t : Thread) (newId : Nat) (spawnOk : Bool) : Thread :=
  if t.threadHandle_.isSome then t
  else if spawnOk then
    { t with
      threadShouldExit_ := false
      threadHandle_ := some newId
      threadId_ := newId
      runningAffinity := some t.affinityMask_ }
  else t

/-- Modelled from the spec and the header doc at juce_Thread.h lines
97-104: `Thread::startThread(priority)` launches the thread with the given
priority when idle, but if the thread is already running its priority is
changed (as by `setPriority`). -/
def Thread.startThreadWithPriority (t : Thread) (priority : Int) (newId : Nat)
    (spawnOk : Bool) : Thread :=
  if t.threadHandle_.isSome then t.setPriority priority
  else Thread.startThread (t.setPriority priority) newId spawnOk

/-- Modelled from the spec: `Thread::signalThreadShouldExit()` sets the
exit flag and wakes the user signal, without waiting. -/
def Thread.signalThreadShouldExit (t : Thread) : Thread :=
  { t with threadShouldExit_ := true, userSignal := true }

/-- Modelled from the spec: a worker parked in `wait(-1)` on the user
signal is released exactly when the signal is set. -/
def Thread.waitReleased (t : Thread) : Bool :=
  t.userSignal

/-- Modelled from the spec: `Thread::notify()` sets the sticky user
signal. -/
def Thread.notify (t : Thread) : Thread :=
  { t with userSignal := true }

/-- Modelled from the spec: `Thread::wait(ms)` returns true and consumes
the user signal if it is set; otherwise it blocks until a notify arrives
(`notifiedWithinTimeout`, consumed as it is delivered) or the timeout
elapses. -/
def Thread.waitOnUserSignal (t : Thread) (timeOutMilliseconds : Int)
    (notifiedWithinTimeout : Bool) : Bool × Thread :=
  if t.userSignal then (true, { t with userSignal := false })
  else if timeOutMilliseconds = 0 then (false, t)
  else (notifiedWithinTimeout, t)

/-- Modelled from the spec: `Thread::stopThread(timeOut)`.  A no-op when
idle; otherwise it sets the exit flag, wakes the user signal, then waits
up to the timeout (negative = unbounded).  A clean exit is joined; a
worker that overruns a non-negative timeout is forcibly terminated.  All
three paths end with the native unit gone and the handle/id cleared. -/
def Thread.stopThread (t : Thread) (timeOutMilliseconds : Int)
    (exitsWithinTimeout : Bool) : Thread :=
  if t.threadHandle_.isNone then t
  else
    let signalled : Thread := { t with threadShouldExit_ := true, userSignal := true }
    let idle : Thread :=
      { signalled with threadHandle_ := none, threadId_ := 0, runningAffinity := none }
    if timeOutMilliseconds < 0 then idle
    else if exitsWithinTimeout then idle
    else idle

/-- Modelled from the spec: `Thread::waitForThreadToExit(ms)` is pure
observation — it returns at once with true when the thread is not
running, returns false when a zero timeout expires on a running thread,
and otherwise reports whether the worker exited before the timeout.  It
never mutates the thread, so the state component is always the input. -/
def Thread.waitForThreadToExit (t : Thread) (timeOutMilliseconds : Int)
    (exitsWithinTimeout : Bool) : Bool × Thread :=
  if t.threadHandle_.isNone then (true, t)
  else if timeOutMilliseconds = 0 then (false, t)
  else (exitsWithinTimeout, t)

/-- Modelled from the spec: the association between a calling execution
context and the process-wide registry — `registeredThread` is the Thread
object associated with the caller, if any (the main UI thread and other
non-JUCE threads have none). -/
structure ExecContext where
  registeredThread : Option Thread
deriving DecidableEq, Repr

/-- Modelled from the spec: static `Thread::getCurrentThread()` — the
registry lookup, null when the caller is not a registered worker. -/
def Thread.getCurrentThread (ctx : ExecContext) : Option Thread :=
  ctx.registeredThread

/-- Modelled from the spec: static `Thread::getCurrentThreadId()` — the
identity of the calling execution context, 0 if it has no associated
Thread object, otherwise the registered worker's id. -/
def Thread.getCurrentThreadId (ctx : ExecContext) : Nat :=
  match ctx.registeredThread with
  | none => 0
  | some t => t.threadId_

/-- The public operations of the Thread component, with the environment
oracles their behaviour depends on. -/
inductive ThreadOp where
  | start (newId : Nat) (spawnOk : Bool)
  | startWithPriority (priority : Int) (newId : Nat) (spawnOk : Bool)
  | stop (timeOutMilliseconds : Int) (exitsWithinTimeout : Bool)
  | signalShouldExit
  | checkShouldExit
  | checkIsRunning
  | waitForExit (timeOutMilliseconds : Int) (exitsWithinTimeout : Bool)
  | setPriorityTo (priority : Int)
  | setAffinityTo (affinityMask : Nat)
  | waitForNotify (timeOutMilliseconds : Int) (notifiedWithinTimeout : Bool)
  | notifyThread
  | getId
  | getName
deriving DecidableEq, Repr

/-- Whether an operation is one of the two start overloads (the only
operations that reset the exit flag). -/
def ThreadOp.isStart : ThreadOp → Bool
  | .start _ _ => true
  | .startWithPriority _ _ _ => true
  | _ => false

/-- The outcome an operation communicates to its caller: nothing, a
boolean, an id, or a name — never an exception. -/
inductive ThreadOutcome where
  | nothing
  | flag (b : Bool)
  | ident (n : Nat)
  | text (s : String)
deriving DecidableEq, Repr

/-- Modelled from the spec: the state reached after one public operation. -/
def Thread.stepState (t : Thread) : ThreadOp → Thread
  | .start newId spawnOk => t.startThread newId spawnOk
  | .startWithPriority p newId spawnOk => t.startThreadWithPriority p newId spawnOk
  | .stop ms ex => t.stopThread ms ex
  | .signalShouldExit => t.signalThreadShouldExit
  | .checkShouldExit => t
  | .checkIsRunning => t
  | .waitForExit ms ex => (t.waitForThreadToExit ms ex).2
  | .setPriorityTo p => t.setPriority p
  | .setAffinityTo m => t.setAffinityMask m
  | .waitForNotify ms n => (t.waitOnUserSignal ms n).2
  | .notifyThread => t.notify
  | .getId => t
  | .getName => t

/-- Modelled from the spec (propagation policy): every public operation
returns normally, yielding the successor state and an outcome; no
exceptional result exists in any branch, including the misuse cases. -/
def Thread.applyOp (t : Thread) : ThreadOp → Except String (Thread × ThreadOutcome)
  | .start newId spawnOk => .ok (t.startThread newId spawnOk, .nothing)
  | .startWithPriority p newId spawnOk =>
      .ok (t.startThreadWithPriority p newId spawnOk, .nothing)
  | .stop ms ex => .ok (t.stopThread ms ex, .nothing)
  | .signalShouldExit => .ok (t.signalThreadShouldExit, .nothing)
  | .checkShouldExit => .ok (t, .flag t.threadShouldExit)
  | .checkIsRunning => .ok (t, .flag t.isThreadRunning)
  | .waitForExit ms ex =>
      .ok ((t.waitForThreadToExit ms ex).2, .flag (t.waitForThreadToExit ms ex).1)
  | .setPriorityTo p => .ok (t.setPriority p, .nothing)
  | .setAffinityTo m => .ok (t.setAffinityMask m, .nothing)
  | .waitForNotify ms n =>
      .ok ((t.waitOnUserSignal ms n).2, .flag (t.waitOnUserSignal ms n).1)
  | .notifyThread => .ok (t.notify, .nothing)
  | .getId => .ok (t, .ident t.getThreadId)
  | .getName => .ok (t, .text t.getThreadName)

/-- The state after a sequence of public operations. -/
def Thread.runOps (t : Thread) (ops : List ThreadOp) : Thread :=
  ops.foldl Thread.stepState t

/-- A sample idle thread used by concrete witnesses. -/
def sampleIdle : Thread :=
  Thread.mkThread "worker"

/-- A sample running thread (id 3) used by concrete witnesses. -/
def sampleRunning : Thread :=
  sampleIdle.startThread 3 true

/-- A sample path whose winding flag is false, used by a concrete
witness. -/
def samplePath : RelativePointPath :=
  { elements := [PathElement.lineTo ⟨1, 2, false⟩]
    usesNonZeroWinding := false
    containsDynamicPoints := false }

/-- A sample path already containing a dynamic point, used by a concrete
witness. -/
def sampleDynPath : RelativePointPath :=
  RelativePointPath.addElement RelativePointPath.empty
    (some (PathElement.startSubPath ⟨0, 0, true⟩))

/-! ## Helper lemmas -/

/-- Whatever `addElement` receives, a true `containsDynamicPoints` stays
true (the flag is or-ed, never cleared). -/
theorem RelativePointPath.addElement_keeps_dynamic (p : RelativePointPath)
    (o : Option PathElement) (h : p.containsDynamicPoints = true) :
    (p.addElement o).containsDynamicPoints = true := by
  cases o <;> simp [RelativePointPath.addElement, h]

/-- Folding any sequence of `addElement` calls preserves a true
`containsDynamicPoints` flag. -/
theorem RelativePointPath.foldl_addElement_keeps_dynamic
    (es : List (Option PathElement)) (p : RelativePointPath)
    (h : p.containsDynamicPoints = true) :
    (es.foldl RelativePointPath.addElement p).containsDynamicPoints = true := by
  induction es generalizing p with
  | nil => exact h
  | cons o es ih => exact ih _ (RelativePointPath.addElement_keeps_dynamic p o h)

/-- `waitForThreadToExit` returns the input state in every branch. -/
theorem Thread.waitForThreadToExit_snd (t : Thread) (ms : Int) (ex : Bool) :
    (t.waitForThreadToExit ms ex).2 = t := by
  unfold Thread.waitForThreadToExit
  split
  · rfl
  · split <;> rfl

/-- `wait` on the user signal never touches the exit flag. -/
theorem Thread.waitOnUserSignal_snd_exit (t : Thread) (ms : Int) (n : Bool) :
    ((t.waitOnUserSignal ms n).2).threadShouldExit_ = t.threadShouldExit_ := by
  unfold Thread.waitOnUserSignal
  split
  · rfl
  · split <;> rfl

/-- `stopThread` keeps a true exit flag true in every branch. -/
theorem Thread.stopThread_keeps_exit (t : Thread) (ms : Int) (ex : Bool)
    (h : t.threadShouldExit_ = true) :
    (t.stopThread ms ex).threadShouldExit_ = true := by
  unfold Thread.stopThread
  split
  · exact h
  · split
    · rfl
    · split <;> rfl

/-- Any single non-start operation preserves a true exit flag. -/
theorem Thread.stepState_keeps_exit (t : Thread) (op : ThreadOp)
    (hop : op.isStart = false) (h : t.threadShouldExit_ = true) :
    (t.stepState op).threadShouldExit_ = true := by
  cases op with
  | start newId spawnOk => simp [ThreadOp.isStart] at hop
  | startWithPriority p newId spawnOk => simp [ThreadOp.isStart] at hop
  | stop ms ex => exact t.stopThread_keeps_exit ms ex h
  | signalShouldExit => rfl
  | checkShouldExit => exact h
  | checkIsRunning => exact h
  | waitForExit ms ex =>
      show ((t.waitForThreadToExit ms ex).2).threadShouldExit_ = true
      rw [Thread.waitForThreadToExit_snd]
      exact h
  | setPriorityTo p => exact h
  | setAffinityTo m => exact h
  | waitForNotify ms n =>
      show ((t.waitOnUserSignal ms n).2).threadShouldExit_ = true
      rw [Thread.waitOnUserSignal_snd_exit]
      exact h
  | notifyThread => exact h
  | getId => exact h
  | getName => exact h

/-- Any sequence of non-start operations preserves a true exit flag. -/
theorem Thread.runOps_keeps_exit (ops : List ThreadOp) (t : Thread)
    (hops : ∀ op ∈ ops, op.isStart = false) (h : t.threadShouldExit_ = true) :
    (t.runOps ops).threadShouldExit_ = true := by
  induction ops generalizing t with
  | nil => exact h
  | cons op ops ih =>
      exact ih (t.stepState op) (fun o ho => hops o (List.mem_cons_of_mem _ ho))
        (t.stepState_keeps_exit op (hops op (List.mem_cons_self _ _)) h)

/-! ## Claim theorems -/

/-- C1 counterexample: the claim says a second `start(priority)` on a
running thread modifies no observable state, but the header documents that
it changes the priority — on the running sample thread (priority 5),
`startThread(9)` yields a different state. -/
theorem startThreadWithPriority_modifies_running_thread :
    sampleRunning.isThreadRunning = true
    ∧ sampleRunning.startThreadWithPriority 9 5 true ≠ sampleRunning := by
  constructor
  · rfl
  · decide

/-- C1 (amended): on a running thread, `startThread()` is a complete
no-op, and `startThread(priority)` spawns no new worker and leaves the
handle and id unchanged, acting exactly as `setPriority(priority)`. -/
theorem start_on_running_thread (t : Thread) (newId : Nat) (spawnOk : Bool)
    (h : t.isThreadRunning = true) :
    t.startThread newId spawnOk = t
    ∧ (∀ p, t.startThreadWithPriority p newId spawnOk = t.setPriority p)
    ∧ (∀ p, (t.startThreadWithPriority p newId spawnOk).getThreadId = t.getThreadId)
    ∧ (∀ p, (t.startThreadWithPriority p newId spawnOk).isThreadRunning = true) := by
  have hs : t.threadHandle_.isSome = true := h
  refine ⟨?_, ?_, ?_, ?_⟩ <;>
    simp [Thread.startThread, Thread.startThreadWithPriority, Thread.setPriority,
      Thread.getThreadId, Thread.isThreadRunning, hs]

/-- C1 witness: the sample running thread is running, and a second
`startThread()` leaves it unchanged. -/
theorem start_on_running_thread_witness :
    sampleRunning.isThreadRunning = true
    ∧ sampleRunning.startThread 9 true = sampleRunning :=
  ⟨rfl, (start_on_running_thread sampleRunning 9 true rfl).1⟩

/-- C2: stopping a running, cooperating worker leaves the thread not
running; a subsequent start succeeds with the new id and a cleared exit
flag; and the exit flag, once true, stays true across any sequence of
non-start operations (it is only reset by a start). -/
theorem stop_then_restart (t : Thread) (timeOutMilliseconds : Int) (newId : Nat)
    (h : t.isThreadRunning = true) :
    (t.stopThread timeOutMilliseconds true).isThreadRunning = false
    ∧ ((t.stopThread timeOutMilliseconds true).startThread newId true).isThreadRunning = true
    ∧ ((t.stopThread timeOutMilliseconds true).startThread newId true).getThreadId = newId
    ∧ ((t.stopThread timeOutMilliseconds true).startThread newId true).threadShouldExit = false
    ∧ (∀ ops : List ThreadOp, (∀ op ∈ ops, op.isStart = false) →
        t.threadShouldExit = true → (t.runOps ops).threadShouldExit = true) := by
  have hs : t.threadHandle_.isSome = true := h
  obtain ⟨v, hv⟩ := Option.isSome_iff_exists.mp hs
  refine ⟨?_, ?_, ?_, ?_, ?_⟩
  · simp [Thread.stopThread, Thread.isThreadRunning, hv]
  · simp [Thread.stopThread, Thread.startThread, Thread.isThreadRunning, hv]
  · simp [Thread.stopThread, Thread.startThread, Thread.getThreadId, hv]
  · simp [Thread.stopThread, Thread.startThread, Thread.threadShouldExit, hv]
  · intro ops hops hflag
    exact Thread.runOps_keeps_exit ops t hops hflag

/-- C2 witness: stopping the sample running thread leaves it idle, and a
restart with id 7 reports id 7. -/
theorem stop_then_restart_witness :
    (sampleRunning.stopThread 1000 true).isThreadRunning = false
    ∧ ((sampleRunning.stopThread 1000 true).startThread 7 true).getThreadId = 7 :=
  ⟨(stop_then_restart sampleRunning 1000 7 rfl).1,
   (stop_then_restart sampleRunning 1000 7 rfl).2.2.1⟩

/-- C3: `signalThreadShouldExit` sets the exit flag (so
`threadShouldExit()` reads true immediately afterwards) and wakes the
user signal, so a worker parked in `wait(-1)` is released and the wait
returns true at once even if no notify ever arrives. -/
theorem signalThreadShouldExit_sets_flag_and_wakes (t : Thread) :
    (t.signalThreadShouldExit).threadShouldExit = true
    ∧ (t.signalThreadShouldExit).userSignal = true
    ∧ (t.signalThreadShouldExit).waitReleased = true
    ∧ ((t.signalThreadShouldExit).waitOnUserSignal (-1) false).1 = true := by
  refine ⟨rfl, rfl, rfl, ?_⟩
  simp [Thread.signalThreadShouldExit, Thread.waitOnUserSignal]

/-- C4: `waitForThreadToExit` is pure observation — the thread state is
returned unchanged in every case; it reports true at once on a
non-running thread, false when a zero timeout expires on a running one,
and otherwise whether the worker exited before the timeout. -/
theorem waitForThreadToExit_pure_observation (t : Thread) (ms : Int) (ex : Bool) :
    (t.waitForThreadToExit ms ex).2 = t
    ∧ (t.isThreadRunning = false → (t.waitForThreadToExit ms ex).1 = true)
    ∧ (t.isThreadRunning = true → (t.waitForThreadToExit 0 ex).1 = false)
    ∧ (t.isThreadRunning = true → ms ≠ 0 → (t.waitForThreadToExit ms ex).1 = ex) := by
  refine ⟨t.waitForThreadToExit_snd ms ex, ?_, ?_, ?_⟩
  · intro h
    have hn : t.threadHandle_ = none := by
      cases hv : t.threadHandle_ with
      | none => rfl
      | some v => simp [Thread.isThreadRunning, hv] at h
    simp [Thread.waitForThreadToExit, hn]
  · intro h
    have hs : t.threadHandle_.isSome = true := h
    obtain ⟨v, hv⟩ := Option.isSome_iff_exists.mp hs
    simp [Thread.waitForThreadToExit, hv]
  · intro h hms
    have hs : t.threadHandle_.isSome = true := h
    obtain ⟨v, hv⟩ := Option.isSome_iff_exists.mp hs
    simp [Thread.waitForThreadToExit, hv, hms]

/-- C4 witness: `waitForThreadToExit(0)` returns false on the sample
running thread and true on the sample idle thread, leaving both
unchanged. -/
theorem waitForThreadToExit_pure_observation_witness :
    sampleRunning.isThreadRunning = true
    ∧ (sampleRunning.waitForThreadToExit 0 false).1 = false
    ∧ sampleIdle.isThreadRunning = false
    ∧ (sampleIdle.waitForThreadToExit 0 false).1 = true :=
  ⟨rfl,
   (waitForThreadToExit_pure_observation sampleRunning 0 false).2.2.1 rfl,
   rfl,
   (waitForThreadToExit_pure_observation sampleIdle 0 false).2.1 rfl⟩

/-- C5: `getCurrentThreadId` returns 0 for an execution context with no
associated Thread object, and a registered worker's own id otherwise. -/
theorem getCurrentThreadId_registry (ctx : ExecContext) :
    (ctx.registeredThread = none → Thread.getCurrentThreadId ctx = 0)
    ∧ (∀ t, ctx.registeredThread = some t →
        Thread.getCurrentThreadId ctx = t.threadId_) := by
  constructor
  · intro h
    simp [Thread.getCurrentThreadId, h]
  · intro t h
    simp [Thread.getCurrentThreadId, h]

/-- C5 witness: an unregistered context reports id 0; a context registered
to the sample running thread reports that thread's id. -/
theorem getCurrentThreadId_registry_witness :
    Thread.getCurrentThreadId ⟨none⟩ = 0
    ∧ Thread.getCurrentThreadId ⟨some sampleRunning⟩ = sampleRunning.threadId_ :=
  ⟨(getCurrentThreadId_registry ⟨none⟩).1 rfl,
   (getCurrentThreadId_registry ⟨some sampleRunning⟩).2 sampleRunning rfl⟩

/-- C6: `setPriority` stores the clamped priority — below 0 becomes 0,
above 10 becomes 10, values in [0,10] are kept — so the internal priority
query reflects the clamped value, and the static
`setCurrentThreadPriority` applies the same clamp to the caller. -/
theorem setPriority_clamps (t : Thread) (p : Int) :
    (t.setPriority p).threadPriority_ = clampPriority p
    ∧ (p < 0 → (t.setPriority p).threadPriority_ = 0)
    ∧ (10 < p → (t.setPriority p).threadPriority_ = 10)
    ∧ (0 ≤ p → p ≤ 10 → (t.setPriority p).threadPriority_ = p)
    ∧ Thread.setCurrentThreadPriority p = clampPriority p := by
  refine ⟨rfl, ?_, ?_, ?_, rfl⟩ <;>
    · intros
      simp only [Thread.setPriority, clampPriority]
      omega

/-- C6 witness: priority -3 is clamped to 0 and priority 42 to 10 on the
sample idle thread. -/
theorem setPriority_clamps_witness :
    (sampleIdle.setPriority (-3)).threadPriority_ = 0
    ∧ (sampleIdle.setPriority 42).threadPriority_ = 10 :=
  ⟨(setPriority_clamps sampleIdle (-3)).2.1 (by decide),
   (setPriority_clamps sampleIdle 42).2.2.1 (by decide)⟩

/-- C7: `setAffinityMask` stores the cached mask and modifies nothing
else — in particular the effective affinity of a live native unit is
unchanged, so the call is non-retroactive. -/
theorem setAffinityMask_only_caches (t : Thread) (mask : Nat) :
    (t.setAffinityMask mask).affinityMask_ = mask
    ∧ (t.setAffinityMask mask).runningAffinity = t.runningAffinity
    ∧ (t.setAffinityMask mask).threadName_ = t.threadName_
    ∧ (t.setAffinityMask mask).threadHandle_ = t.threadHandle_
    ∧ (t.setAffinityMask mask).threadId_ = t.threadId_
    ∧ (t.setAffinityMask mask).threadPriority_ = t.threadPriority_
    ∧ (t.setAffinityMask mask).threadShouldExit_ = t.threadShouldExit_
    ∧ (t.setAffinityMask mask).userSignal = t.userSignal :=
  ⟨rfl, rfl, rfl, rfl, rfl, rfl, rfl, rfl⟩

/-- C8: every public operation returns normally (no exceptional result in
any branch), and the misuse cases are benign no-ops: stopping an idle
thread and a failed spawn both leave the state untouched. -/
theorem thread_ops_never_throw (t : Thread) (op : ThreadOp) :
    (∃ r, t.applyOp op = Except.ok r)
    ∧ (t.isThreadRunning = false → ∀ ms ex, t.stopThread ms ex = t)
    ∧ (∀ newId, t.startThread newId false = t) := by
  refine ⟨?_, ?_, ?_⟩
  · cases op <;> exact ⟨_, rfl⟩
  · intro h ms ex
    have hn : t.threadHandle_ = none := by
      cases hv : t.threadHandle_ with
      | none => rfl
      | some v => simp [Thread.isThreadRunning, hv] at h
    simp [Thread.stopThread, hn]
  · intro newId
    cases hv : t.threadHandle_ <;> simp [Thread.startThread, hv]

/-- C8 witness: stopping the sample idle thread is a no-op. -/
theorem thread_ops_never_throw_witness :
    sampleIdle.isThreadRunning = false
    ∧ sampleIdle.stopThread 100 true = sampleIdle :=
  ⟨rfl, (thread_ops_never_throw sampleIdle ThreadOp.signalShouldExit).2.1 rfl 100 true⟩

/-- C9: the copy constructor always produces `usesNonZeroWinding = true`
and `containsDynamicPoints = false` whatever the source's flags were, so
whenever the source has `usesNonZeroWinding = false` or
`containsDynamicPoints = true`, the copy compares unequal to it under
`operator==`. -/
theorem copy_constructor_resets_flags (p : RelativePointPath) :
    (RelativePointPath.copyOf p).usesNonZeroWinding = true
    ∧ (RelativePointPath.copyOf p).containsDynamicPoints = false
    ∧ ((p.usesNonZeroWinding = false ∨ p.containsDynamicPoints = true) →
        RelativePointPath.eq (RelativePointPath.copyOf p) p = false) := by
  refine ⟨rfl, rfl, ?_⟩
  intro h
  rcases h with h | h <;> simp [RelativePointPath.eq, RelativePointPath.copyOf, h]

/-- C9 witness: the sample path uses even-odd winding, and its copy
compares unequal to it. -/
theorem copy_constructor_resets_flags_witness :
    samplePath.usesNonZeroWinding = false
    ∧ RelativePointPath.eq (RelativePointPath.copyOf samplePath) samplePath = false :=
  ⟨rfl, (copy_constructor_resets_flags samplePath).2.2 (Or.inl rfl)⟩

/-- C10: `addElement` with a null element leaves the path unchanged; with
a real element it appends it and or-s the dynamic flag with the element's
`isDynamic()`; and once `containsAnyDynamicPoints()` is true, no sequence
of further `addElement` calls ever makes it false again. -/
theorem addElement_null_noop_and_monotone (p : RelativePointPath) (e : PathElement) :
    p.addElement none = p
    ∧ (p.addElement (some e)).elements = p.elements ++ [e]
    ∧ (p.addElement (some e)).containsAnyDynamicPoints
        = (p.containsAnyDynamicPoints || e.isDynamic)
    ∧ (∀ es : List (Option PathElement), p.containsAnyDynamicPoints = true →
        (es.foldl RelativePointPath.addElement p).containsAnyDynamicPoints = true) := by
  refine ⟨rfl, rfl, rfl, ?_⟩
  intro es h
  exact RelativePointPath.foldl_addElement_keeps_dynamic es p h

/-- C10 witness: the sample path with a dynamic start point reports
dynamic points, and still does after adding a close element and a null
element. -/
theorem addElement_null_noop_and_monotone_witness :
    sampleDynPath.containsAnyDynamicPoints = true
    ∧ (List.foldl RelativePointPath.addElement sampleDynPath
        [some PathElement.closeSubPath, none]).containsAnyDynamicPoints = true :=
  ⟨rfl,
   (addElement_null_noop_and_monotone sampleDynPath PathElement.closeSubPath).2.2.2
     [some PathElement.closeSubPath, none] rfl⟩

end JUCE
